import Mathlib

/-!
Verification of the render-worker control loop of `requestWorker.py`
(unrealRenderFarm).

The embedding models the worker loop as a trace-producing function. External
effects (the job source, the spawned render process, exceptions raised by
remote calls) are parameters of the model:

* `RenderStatus` and `RenderRequest` mirror the job entity fields the worker
  reads (`uid`, `worker`, `status` and the three asset paths).
* A status write (`client.update_request` / `rrequest.update`) is recorded as
  an `Event.update` carrying the same four arguments as
  `send_status_update(uid, progress, time_estimate, status)`; the invocation
  of the `render` driver is recorded as `Event.renderCall`.
* `RenderBehavior` captures one run of the external process: the elapsed
  times (in seconds, as exact rationals) observed at each heartbeat tick of
  the `while proc.poll() is None` loop, and either a normal exit with a
  return code plus captured stdout/stderr, or an exception raised while
  spawning or monitoring.
* `JobBehavior` additionally records which of the remote calls made by the
  per-job body of the main loop raise an exception: the
  `RenderRequest.from_db(uid)` reload (line 119, outside the try block), the
  claim update (line 122), the finished update (line 140) and the errored
  update performed inside the two except handlers (lines 149 and 157).
* `processJob` is the body of `for uid in uids:` (lines 116-161) and
  `workerPass` is one iteration of `while True:` (lines 101-164), returning
  the list of emitted events together with a flag telling whether an
  uncaught exception escaped the loop body.

Python `int()` applied to an exact rational truncates toward zero; this is
`pyInt` below, implemented with `Int.tdiv` on numerator and denominator.
-/

/-- Truncation toward zero of an exact rational, the behaviour of Python
`int()` on a non-integral number. -/
def pyInt (q : ℚ) : ℤ := q.num.tdiv q.den

/-- Statuses of a render request, from `util.renderRequest.RenderStatus` as
used by `requestWorker.py`. -/
inductive RenderStatus : Type
  | ready_to_start
  | in_progress
  | finished
  | errored
deriving DecidableEq

/-- The fields of a render request record that `requestWorker.py` reads. -/
structure RenderRequest : Type where
  uid : String
  worker : String
  status : RenderStatus
  umap_path : String
  useq_path : String
  uconfig_path : String
deriving DecidableEq

/-- `WORKER_NAME` from `requestWorker.py` line 23. -/
def WORKER_NAME : String := "RENDER_MACHINE_01"

/-- Observable actions of the worker: a status write (the four arguments of
`send_status_update` / `rrequest.update`) or an invocation of the `render`
driver with its four arguments. -/
inductive Event : Type
  | update (uid : String) (progress : ℤ) (time_estimate : String)
      (status : RenderStatus)
  | renderCall (uid umap_path useq_path uconfig_path : String)
deriving DecidableEq

/-- One run of the external render process: the elapsed wall-clock times
sampled at the successive heartbeat ticks, and either an exception while
spawning or monitoring (`raises`) or process exit with a return code and the
captured stdout / stderr (`completes`). -/
inductive RenderBehavior : Type
  | raises (ticks : List ℚ)
  | completes (ticks : List ℚ) (returncode : ℤ) (stdout stderr : String)
deriving DecidableEq

/-- The heartbeat elapsed times of a render behaviour. -/
def RenderBehavior.ticks : RenderBehavior → List ℚ
  | .raises ts => ts
  | .completes ts _ _ _ => ts

/-- Line 90: `progress = min(100, int((elapsed_time / 60) * 100))`. -/
def heartbeatProgress (elapsed : ℚ) : ℤ := min 100 (pyInt (elapsed / 60 * 100))

/-- Lines 91: `time_estimate = '{}s'.format(int(60 - elapsed_time))`. -/
def heartbeatTimeEstimate (elapsed : ℚ) : String :=
  toString (pyInt (60 - elapsed)) ++ "s"

/-- Line 92: the status update sent on one heartbeat tick. -/
def heartbeatEvent (uid : String) (elapsed : ℚ) : Event :=
  .update uid (heartbeatProgress elapsed) (heartbeatTimeEstimate elapsed)
    RenderStatus.in_progress

/-- The updates sent by the `while proc.poll() is None` loop, lines 88-93. -/
def renderEvents (uid : String) (ticks : List ℚ) : List Event :=
  ticks.map (heartbeatEvent uid)

/-- The `render` function, lines 40-96: spawn the process (recorded as
`Event.renderCall`), heartbeat while it is alive, and either return
`(proc.returncode, stdout, stderr)` after `proc.communicate()` or propagate
an exception (`none`) raised while spawning or monitoring. -/
def render (uid umap_path useq_path uconfig_path : String)
    (b : RenderBehavior) : List Event × Option (ℤ × String × String) :=
  (Event.renderCall uid umap_path useq_path uconfig_path ::
      renderEvents uid b.ticks,
   match b with
   | .raises _ => none
   | .completes _ rc out err => some (rc, out, err))

/-- Which of the remote calls made while processing one job raise an
exception, together with the behaviour of the spawned render process. -/
structure JobBehavior : Type where
  fromDbRaises : Bool
  claimUpdateRaises : Bool
  renderBehavior : RenderBehavior
  finishedUpdateRaises : Bool
  erroredUpdateRaises : Bool
deriving DecidableEq

/-- Line 122: the claim write
`rrequest.update(progress=0, status=in_progress, time_estimate='Calculando...')`. -/
def claimEvent (uid : String) : Event :=
  .update uid 0 "Calculando..." RenderStatus.in_progress

/-- Line 140: the terminal write
`rrequest.update(progress=100, status=finished, time_estimate='N/A')`. -/
def finishedEvent (uid : String) : Event :=
  .update uid 100 "N/A" RenderStatus.finished

/-- Lines 149 and 157: the terminal write
`rrequest.update(progress=0, status=errored, time_estimate='0')` performed in
both except handlers. -/
def erroredEvent (uid : String) : Event :=
  .update uid 0 "0" RenderStatus.errored

/-- The body of the two except handlers (lines 146-161): write the errored
status, unless that write itself raises, in which case the exception escapes
the loop body (second component `true`). -/
def handleJobError (uid : String) (evs : List Event) (b : JobBehavior) :
    List Event × Bool :=
  if b.erroredUpdateRaises then (evs, true) else (evs ++ [erroredEvent uid], false)

/-- The body of `for uid in uids:` for one uid (lines 116-161): reload the
request (outside the try block), claim it, run `render`, raise
`CalledProcessError` on a non-zero return code, and write the terminal
status; exceptions inside the try block are handled by `handleJobError`.
Returns the emitted events and whether an uncaught exception escaped. -/
def processJob (uid : String) (rr : RenderRequest) (b : JobBehavior) :
    List Event × Bool :=
  if b.fromDbRaises then ([], true)
  else if b.claimUpdateRaises then handleJobError rr.uid [] b
  else
    let r := render uid rr.umap_path rr.useq_path rr.uconfig_path
      b.renderBehavior
    let evs := claimEvent rr.uid :: r.1
    match r.2 with
    | none => handleJobError rr.uid evs b
    | some (rc, _, _) =>
      if rc ≠ 0 then handleJobError rr.uid evs b
      else if b.finishedUpdateRaises then handleJobError rr.uid evs b
      else (evs ++ [finishedEvent rr.uid], false)

/-- Lines 109-111: `uids = [r.uid for r in rrequests if r.worker ==
WORKER_NAME and r.status == RenderStatus.ready_to_start]`. -/
def eligibleUids (reqs : List RenderRequest) : List String :=
  (reqs.filter fun r =>
    r.worker == WORKER_NAME && r.status == RenderStatus.ready_to_start).map
    RenderRequest.uid

/-- Sequential processing of the selected uids (lines 116-161); an uncaught
exception aborts the pass, leaving the remaining uids unprocessed. `db`
models `RenderRequest.from_db` and `beh` the external behaviour met while
processing each uid. -/
def processUids (db : String → RenderRequest) (beh : String → JobBehavior) :
    List String → List Event × Bool
  | [] => ([], false)
  | uid :: rest =>
    let p := processJob uid (db uid) (beh uid)
    if p.2 then (p.1, true)
    else
      let q := processUids db beh rest
      (p.1 ++ q.1, q.2)

/-- One pass of the `while True:` loop, lines 101-164: fetch, filter,
process each eligible uid in order. -/
def workerPass (reqs : List RenderRequest) (db : String → RenderRequest)
    (beh : String → JobBehavior) : List Event × Bool :=
  processUids db beh (eligibleUids reqs)

/-- The uid a status write or driver invocation refers to. -/
def Event.uidOf : Event → String
  | .update u _ _ _ => u
  | .renderCall u _ _ _ => u

/-- The status carried by an event, if it is a status write. -/
def Event.statusOf? : Event → Option RenderStatus
  | .update _ _ _ st => some st
  | .renderCall _ _ _ _ => none

/-- An exception is raised inside the per-job try block (lines 120-145) when
the claim write raises, when `render` raises during spawn or monitoring, when
the process exits with a non-zero code (`CalledProcessError` is raised at
line 137), or when the finished write raises. -/
def raisesInTry (b : JobBehavior) : Bool :=
  b.claimUpdateRaises ||
    (match b.renderBehavior with
     | .raises _ => true
     | .completes _ rc _ _ => rc != 0 || b.finishedUpdateRaises)

section PyIntLemmas

/-- On a nonnegative rational, Python truncation agrees with the floor. -/
theorem pyInt_eq_floor {q : ℚ} (h : 0 ≤ q) : pyInt q = ⌊q⌋ := by
  rw [Rat.floor_def]
  exact Int.tdiv_eq_ediv (Rat.num_nonneg.mpr h) (Int.natCast_nonneg _)

/-- Python truncation commutes with negation. -/
theorem pyInt_neg (q : ℚ) : pyInt (-q) = -pyInt q := by
  unfold pyInt
  rw [Rat.neg_num, Rat.neg_den, Int.neg_tdiv]

/-- On a nonpositive rational, Python truncation agrees with the ceiling. -/
theorem pyInt_eq_ceil {q : ℚ} (h : q ≤ 0) : pyInt q = ⌈q⌉ := by
  have h2 : pyInt (-q) = ⌊-q⌋ := pyInt_eq_floor (by linarith)
  rw [pyInt_neg, Int.floor_neg] at h2
  omega

/-- Python truncation is monotone. -/
theorem pyInt_mono {a b : ℚ} (h : a ≤ b) : pyInt a ≤ pyInt b := by
  by_cases ha : 0 ≤ a
  · rw [pyInt_eq_floor ha, pyInt_eq_floor (le_trans ha h)]
    exact Int.floor_le_floor h
  · push_neg at ha
    rw [pyInt_eq_ceil (le_of_lt ha)]
    by_cases hb : 0 ≤ b
    · rw [pyInt_eq_floor hb]
      have h1 : ⌈a⌉ ≤ 0 := Int.ceil_le.mpr (by exact_mod_cast le_of_lt ha)
      have h2 : 0 ≤ ⌊b⌋ := Int.floor_nonneg.mpr hb
      omega
    · push_neg at hb
      rw [pyInt_eq_ceil (le_of_lt hb)]
      exact Int.ceil_le_ceil h

/-- Python truncation of a nonnegative rational is nonnegative. -/
theorem pyInt_nonneg {q : ℚ} (h : 0 ≤ q) : 0 ≤ pyInt q := by
  rw [pyInt_eq_floor h]
  exact Int.floor_nonneg.mpr h

/-- The heartbeat progress value is bounded by the clamp for nonnegative
elapsed time. -/
theorem heartbeatProgress_bounds {t : ℚ} (h : 0 ≤ t) :
    0 ≤ heartbeatProgress t ∧ heartbeatProgress t ≤ 100 := by
  unfold heartbeatProgress
  refine ⟨le_min (by norm_num) (pyInt_nonneg ?_), min_le_left _ _⟩
  positivity

/-- The heartbeat progress value is monotone in elapsed time. -/
theorem heartbeatProgress_mono {a b : ℚ} (h : a ≤ b) :
    heartbeatProgress a ≤ heartbeatProgress b := by
  unfold heartbeatProgress
  exact min_le_min le_rfl (pyInt_mono (by linarith))

end PyIntLemmas

section TraceShape

/-- Every trace of `processJob` has one of three forms: empty (the reload
raised), a single errored write (the claim write raised and the handler
write succeeded), or claim write, driver invocation and heartbeats followed
by an empty, errored or finished tail. -/
theorem processJob_shape (uid : String) (rr : RenderRequest)
    (b : JobBehavior) :
    (processJob uid rr b).1 = [] ∨
    (processJob uid rr b).1 = [erroredEvent rr.uid] ∨
    ∃ tail : List Event,
      (processJob uid rr b).1 =
        claimEvent rr.uid ::
          Event.renderCall uid rr.umap_path rr.useq_path rr.uconfig_path ::
          (renderEvents uid b.renderBehavior.ticks ++ tail) ∧
      (tail = [] ∨ tail = [erroredEvent rr.uid] ∨
        tail = [finishedEvent rr.uid]) := by
  cases hf : b.fromDbRaises with
  | true => exact Or.inl (by simp [processJob, hf])
  | false =>
  cases hc : b.claimUpdateRaises with
  | true =>
    cases he : b.erroredUpdateRaises with
    | true => exact Or.inl (by simp [processJob, handleJobError, hf, hc, he])
    | false =>
      exact Or.inr (Or.inl (by simp [processJob, handleJobError, hf, hc, he]))
  | false =>
  cases hrb : b.renderBehavior with
  | raises ts =>
    cases he : b.erroredUpdateRaises with
    | true =>
      refine Or.inr (Or.inr ⟨[], ?_, Or.inl rfl⟩)
      simp [processJob, handleJobError, render, RenderBehavior.ticks,
        hf, hc, he, hrb]
    | false =>
      refine Or.inr (Or.inr ⟨[erroredEvent rr.uid], ?_, Or.inr (Or.inl rfl)⟩)
      simp [processJob, handleJobError, render, RenderBehavior.ticks,
        hf, hc, he, hrb]
  | completes ts rc out err =>
    by_cases hrc : rc = 0
    · cases hfin : b.finishedUpdateRaises with
      | true =>
        cases he : b.erroredUpdateRaises with
        | true =>
          refine Or.inr (Or.inr ⟨[], ?_, Or.inl rfl⟩)
          simp [processJob, handleJobError, render, RenderBehavior.ticks,
            hf, hc, he, hrb, hrc, hfin]
        | false =>
          refine Or.inr (Or.inr
            ⟨[erroredEvent rr.uid], ?_, Or.inr (Or.inl rfl)⟩)
          simp [processJob, handleJobError, render, RenderBehavior.ticks,
            hf, hc, he, hrb, hrc, hfin]
      | false =>
        refine Or.inr (Or.inr
          ⟨[finishedEvent rr.uid], ?_, Or.inr (Or.inr rfl)⟩)
        simp [processJob, handleJobError, render, RenderBehavior.ticks,
          hf, hc, hrb, hrc, hfin]
    · cases he : b.erroredUpdateRaises with
      | true =>
        refine Or.inr (Or.inr ⟨[], ?_, Or.inl rfl⟩)
        simp [processJob, handleJobError, render, RenderBehavior.ticks,
          hf, hc, he, hrb, hrc]
      | false =>
        refine Or.inr (Or.inr ⟨[erroredEvent rr.uid], ?_, Or.inr (Or.inl rfl)⟩)
        simp [processJob, handleJobError, render, RenderBehavior.ticks,
          hf, hc, he, hrb, hrc]

/-- Every event of a per-job trace refers either to the uid handed to
`render` (the loop variable) or to the uid of the reloaded record. -/
theorem mem_processJob_uidOf {uid : String} {rr : RenderRequest}
    {b : JobBehavior} {e : Event} (h : e ∈ (processJob uid rr b).1) :
    e.uidOf = uid ∨ e.uidOf = rr.uid := by
  rcases processJob_shape uid rr b with hs | hs | ⟨tail, hs, htail⟩ <;>
    rw [hs] at h
  · simp at h
  · simp at h
    simp [h, erroredEvent, Event.uidOf]
  · simp only [List.mem_cons, List.mem_append] at h
    rcases h with rfl | rfl | h | h
    · exact Or.inr rfl
    · exact Or.inl rfl
    · obtain ⟨t, _, rfl⟩ := List.mem_map.mp h
      exact Or.inl rfl
    · rcases htail with rfl | rfl | rfl <;> simp at h <;>
        simp [h, erroredEvent, finishedEvent, Event.uidOf]

/-- No event of a per-job trace is a write of the `ready_to_start` status. -/
theorem processJob_no_ready_write {uid : String} {rr : RenderRequest}
    {b : JobBehavior} {e : Event} (h : e ∈ (processJob uid rr b).1) :
    e.statusOf? ≠ some RenderStatus.ready_to_start := by
  rcases processJob_shape uid rr b with hs | hs | ⟨tail, hs, htail⟩ <;>
    rw [hs] at h
  · simp at h
  · simp at h
    simp [h, erroredEvent, Event.statusOf?]
  · simp only [List.mem_cons, List.mem_append] at h
    rcases h with rfl | rfl | h | h
    · simp [claimEvent, Event.statusOf?]
    · simp [Event.statusOf?]
    · obtain ⟨t, _, rfl⟩ := List.mem_map.mp h
      simp [heartbeatEvent, Event.statusOf?]
    · rcases htail with rfl | rfl | rfl <;> simp at h <;>
        simp [h, erroredEvent, finishedEvent, Event.statusOf?]

/-- Every event of a pass trace comes from the per-job trace of one of the
processed uids. -/
theorem mem_processUids {db : String → RenderRequest}
    {beh : String → JobBehavior} {l : List String} {e : Event}
    (h : e ∈ (processUids db beh l).1) :
    ∃ u ∈ l, e ∈ (processJob u (db u) (beh u)).1 := by
  induction l with
  | nil => simp [processUids] at h
  | cons uid rest ih =>
    rw [processUids] at h
    by_cases hc : (processJob uid (db uid) (beh uid)).2 <;> simp [hc] at h
    · exact ⟨uid, by simp, h⟩
    · rcases h with h | h
      · exact ⟨uid, by simp, h⟩
      · obtain ⟨u, hu, hh⟩ := ih h
        exact ⟨u, by simp [hu], hh⟩

/-- Membership in the eligible uid list comes from a fetched request owned
by this worker in the `ready_to_start` status. -/
theorem mem_eligibleUids {reqs : List RenderRequest} {u : String}
    (h : u ∈ eligibleUids reqs) :
    ∃ r ∈ reqs, r.uid = u ∧ r.worker = WORKER_NAME ∧
      r.status = RenderStatus.ready_to_start := by
  obtain ⟨r, hr, rfl⟩ := List.mem_map.mp h
  have hf := List.mem_filter.mp hr
  refine ⟨r, hf.1, rfl, ?_, ?_⟩
  · have := hf.2
    simp only [Bool.and_eq_true, beq_iff_eq] at this
    exact this.1
  · have := hf.2
    simp only [Bool.and_eq_true, beq_iff_eq] at this
    exact this.2

end TraceShape

/-- C1: for every job returned by the job source whose assigned worker
differs from `WORKER_NAME` or whose status is not `ready_to_start`, one pass
of the worker loop never writes that job: no status update carrying that
uid appears in the trace of the pass. The hypotheses request that the job
registry is keyed by uid (`from_db u` returns the record with uid `u`, and
the fetched uids are pairwise distinct). -/
theorem C1_unassigned_jobs_never_written
    (reqs : List RenderRequest) (db : String → RenderRequest)
    (beh : String → JobBehavior) (r : RenderRequest)
    (hr : r ∈ reqs)
    (hne : r.worker ≠ WORKER_NAME ∨ r.status ≠ RenderStatus.ready_to_start)
    (hdb : ∀ u, (db u).uid = u)
    (hnodup : (reqs.map RenderRequest.uid).Nodup)
    (p : ℤ) (ts : String) (st : RenderStatus) :
    Event.update r.uid p ts st ∉ (workerPass reqs db beh).1 := by
  intro hmem
  obtain ⟨u, hu, hmem2⟩ := mem_processUids hmem
  have huid := mem_processJob_uidOf hmem2
  rw [hdb u] at huid
  have hur : u = r.uid := by
    rcases huid with h | h <;> exact h.symm
  obtain ⟨r2, hr2, hr2uid, hwork, hstat⟩ := mem_eligibleUids hu
  have : r2 = r :=
    List.inj_on_of_nodup_map hnodup hr2 hr (by rw [hr2uid, hur])
  subst this
  rcases hne with h | h
  · exact h hwork
  · exact h hstat

/-- Witness for C1 at a concrete pass: a fetched job owned by another worker
is present while an eligible job is fully processed, and no write ever
carries the foreign uid. -/
theorem C1_unassigned_jobs_never_written_witness :
    Event.update "J2" 0 "Calculando..." RenderStatus.in_progress ∉
      (workerPass
        [⟨"J1", "RENDER_MACHINE_01", RenderStatus.ready_to_start,
            "m", "s", "c"⟩,
         ⟨"J2", "OTHER_MACHINE", RenderStatus.ready_to_start, "m", "s", "c"⟩]
        (fun u => ⟨u, "OTHER_MACHINE", RenderStatus.ready_to_start,
            "m", "s", "c"⟩)
        (fun _ => ⟨false, false, RenderBehavior.completes [] 0 "" "", false,
            false⟩)).1 :=
  C1_unassigned_jobs_never_written _ _ _
    ⟨"J2", "OTHER_MACHINE", RenderStatus.ready_to_start, "m", "s", "c"⟩
    (by simp) (Or.inl (by decide)) (fun u => rfl) (by decide) 0 "Calculando..."
    RenderStatus.in_progress

/-- Counterexample to C3: a job whose render process exits with the
non-zero code 1, after which the errored write performed inside the except
handler (lines 149-153) itself raises. No errored update with progress 0 is
ever written: the trace ends at the driver invocation, the last status
update is the `in_progress` claim write, and the exception escapes the
per-job handler — so a non-zero exit code does not unconditionally yield a
final errored status update. -/
theorem C3_counterexample_errored_write_raises_on_nonzero_exit :
    processJob "J1"
      ⟨"J1", "RENDER_MACHINE_01", RenderStatus.ready_to_start, "m", "s", "c"⟩
      ⟨false, false, RenderBehavior.completes [] 1 "out" "err", false,
        true⟩ =
    ([Event.update "J1" 0 "Calculando..." RenderStatus.in_progress,
      Event.renderCall "J1" "m" "s" "c"], true) := by decide

/-- C3 (amended): for an eligible job whose render process exits with code
`rc`, if `rc = 0` and the finished write succeeds, the last write of the
per-job trace is `finished` with progress 100; if `rc ≠ 0` and the errored
write inside the except handler succeeds, it is `errored` with progress
0. -/
theorem C3_returncode_determines_terminal_status
    (uid : String) (rr : RenderRequest) (b : JobBehavior)
    (ticks : List ℚ) (rc : ℤ) (out err : String)
    (hf : b.fromDbRaises = false) (hc : b.claimUpdateRaises = false)
    (hrb : b.renderBehavior = RenderBehavior.completes ticks rc out err)
    (hfin : rc = 0 → b.finishedUpdateRaises = false)
    (herr : rc ≠ 0 → b.erroredUpdateRaises = false) :
    (processJob uid rr b).1.getLast? =
      some (if rc = 0 then Event.update rr.uid 100 "N/A" RenderStatus.finished
        else Event.update rr.uid 0 "0" RenderStatus.errored) := by
  by_cases hrc : rc = 0
  · rw [if_pos hrc]
    have h1 : (processJob uid rr b).1 =
        (claimEvent rr.uid ::
          Event.renderCall uid rr.umap_path rr.useq_path rr.uconfig_path ::
          renderEvents uid ticks) ++ [finishedEvent rr.uid] := by
      simp [processJob, handleJobError, render, RenderBehavior.ticks,
        hf, hc, hrb, hrc, hfin hrc]
    rw [h1, List.getLast?_concat]
    rfl
  · rw [if_neg hrc]
    have h1 : (processJob uid rr b).1 =
        (claimEvent rr.uid ::
          Event.renderCall uid rr.umap_path rr.useq_path rr.uconfig_path ::
          renderEvents uid ticks) ++ [erroredEvent rr.uid] := by
      simp [processJob, handleJobError, render, RenderBehavior.ticks,
        hf, hc, hrb, hrc, herr hrc]
    rw [h1, List.getLast?_concat]
    rfl

/-- Witness for C3: a job whose process exits 0 ends `finished` at progress
100, applied at a concrete job and behaviour. -/
theorem C3_returncode_determines_terminal_status_witness :
    (processJob "J1"
      ⟨"J1", "RENDER_MACHINE_01", RenderStatus.ready_to_start, "m", "s", "c"⟩
      ⟨false, false, RenderBehavior.completes [] 0 "" "", false,
        false⟩).1.getLast? =
    some (if (0 : ℤ) = 0 then
        Event.update "J1" 100 "N/A" RenderStatus.finished
      else Event.update "J1" 0 "0" RenderStatus.errored) :=
  C3_returncode_determines_terminal_status "J1"
    ⟨"J1", "RENDER_MACHINE_01", RenderStatus.ready_to_start, "m", "s", "c"⟩
    ⟨false, false, RenderBehavior.completes [] 0 "" "", false, false⟩
    [] 0 "" "" rfl rfl rfl (fun _ => rfl) (fun h => absurd rfl h)

/-- C4: whenever the render driver is invoked for a job, the claim write
(`in_progress`, progress 0, placeholder estimate) is the first event of the
per-job trace and the driver invocation is the second, so the claim write
happens strictly before execution starts. -/
theorem C4_claim_write_precedes_render
    (uid : String) (rr : RenderRequest) (b : JobBehavior)
    (u m s c : String)
    (h : Event.renderCall u m s c ∈ (processJob uid rr b).1) :
    (processJob uid rr b).1[0]? =
      some (Event.update rr.uid 0 "Calculando..." RenderStatus.in_progress) ∧
    (processJob uid rr b).1[1]? =
      some (Event.renderCall uid rr.umap_path rr.useq_path
        rr.uconfig_path) := by
  rcases processJob_shape uid rr b with hs | hs | ⟨tail, hs, _⟩ <;>
    rw [hs] at h ⊢
  · simp at h
  · simp [erroredEvent] at h
  · constructor <;> simp [claimEvent]

/-- Witness for C4 at a concrete job and behaviour in which the driver
runs. -/
theorem C4_claim_write_precedes_render_witness :
    (processJob "J1"
      ⟨"J1", "RENDER_MACHINE_01", RenderStatus.ready_to_start, "m", "s", "c"⟩
      ⟨false, false, RenderBehavior.completes [] 0 "" "", false,
        false⟩).1[0]? =
      some (Event.update "J1" 0 "Calculando..." RenderStatus.in_progress) ∧
    (processJob "J1"
      ⟨"J1", "RENDER_MACHINE_01", RenderStatus.ready_to_start, "m", "s", "c"⟩
      ⟨false, false, RenderBehavior.completes [] 0 "" "", false,
        false⟩).1[1]? =
      some (Event.renderCall "J1" "m" "s" "c") :=
  C4_claim_write_precedes_render "J1"
    ⟨"J1", "RENDER_MACHINE_01", RenderStatus.ready_to_start, "m", "s", "c"⟩
    ⟨false, false, RenderBehavior.completes [] 0 "" "", false, false⟩
    "J1" "m" "s" "c" (by decide)

/-- Per-job form of the amended C2: if the reload before the try block and
the errored write inside the handlers do not raise, the per-job body never
lets an exception escape, and any exception inside the try block ends in an
errored write for the job. -/
theorem processJob_no_escape (uid : String) (rr : RenderRequest)
    {b : JobBehavior} (hf : b.fromDbRaises = false)
    (he : b.erroredUpdateRaises = false) :
    (processJob uid rr b).2 = false ∧
    (raisesInTry b = true →
      erroredEvent rr.uid ∈ (processJob uid rr b).1) := by
  cases hc : b.claimUpdateRaises with
  | true =>
    constructor <;>
      simp [processJob, handleJobError, hf, hc, he]
  | false =>
    cases hrb : b.renderBehavior with
    | raises ts =>
      constructor <;>
        simp [processJob, handleJobError, render, hf, hc, he, hrb]
    | completes ts rc out err =>
      by_cases hrc : rc = 0
      · cases hfin : b.finishedUpdateRaises with
        | true =>
          constructor <;>
            simp [processJob, handleJobError, render, hf, hc, he, hrb, hrc,
              hfin]
        | false =>
          constructor
          · simp [processJob, handleJobError, render, hf, hc, he, hrb, hrc,
              hfin]
          · intro hit
            simp [raisesInTry, hc, hrb, hrc, hfin] at hit
      · constructor <;>
          simp [processJob, handleJobError, render, hf, hc, he, hrb, hrc]

/-- List-level form of the amended C2 over any uid list. -/
theorem processUids_no_escape {db : String → RenderRequest}
    {beh : String → JobBehavior} {l : List String}
    (hf : ∀ u ∈ l, (beh u).fromDbRaises = false)
    (he : ∀ u ∈ l, (beh u).erroredUpdateRaises = false) :
    (processUids db beh l).2 = false ∧
    ∀ u ∈ l, raisesInTry (beh u) = true →
      erroredEvent (db u).uid ∈ (processUids db beh l).1 := by
  induction l with
  | nil => exact ⟨rfl, by simp⟩
  | cons uid rest ih =>
    have hj := processJob_no_escape uid (db uid)
      (hf uid (by simp)) (he uid (by simp))
    have ihr := ih (fun u hu => hf u (by simp [hu]))
      (fun u hu => he u (by simp [hu]))
    constructor
    · simp [processUids, hj.1, ihr.1]
    · intro u hu hraise
      rcases List.mem_cons.mp hu with rfl | hu2
      · simp [processUids, hj.1]
        exact Or.inl (hj.2 hraise)
      · simp [processUids, hj.1]
        exact Or.inr (ihr.2 u hu2 hraise)

/-- When the reload and the claim write succeed, the per-job trace is the
claim write, then the driver invocation, then the heartbeats, then some
tail. -/
theorem processJob_trace_form (uid : String) (rr : RenderRequest)
    {b : JobBehavior} (hf : b.fromDbRaises = false)
    (hc : b.claimUpdateRaises = false) :
    ∃ tail : List Event, (processJob uid rr b).1 =
      claimEvent rr.uid ::
        Event.renderCall uid rr.umap_path rr.useq_path rr.uconfig_path ::
        (renderEvents uid b.renderBehavior.ticks ++ tail) := by
  cases hrb : b.renderBehavior with
  | raises ts =>
    cases he : b.erroredUpdateRaises with
    | true =>
      exact ⟨[], by simp [processJob, handleJobError, render,
        RenderBehavior.ticks, hf, hc, he, hrb]⟩
    | false =>
      exact ⟨[erroredEvent rr.uid], by simp [processJob, handleJobError,
        render, RenderBehavior.ticks, hf, hc, he, hrb]⟩
  | completes ts rc out err =>
    by_cases hrc : rc = 0
    · cases hfin : b.finishedUpdateRaises with
      | true =>
        cases he : b.erroredUpdateRaises with
        | true =>
          exact ⟨[], by simp [processJob, handleJobError, render,
            RenderBehavior.ticks, hf, hc, he, hrb, hrc, hfin]⟩
        | false =>
          exact ⟨[erroredEvent rr.uid], by simp [processJob, handleJobError,
            render, RenderBehavior.ticks, hf, hc, he, hrb, hrc, hfin]⟩
      | false =>
        exact ⟨[finishedEvent rr.uid], by simp [processJob, handleJobError,
          render, RenderBehavior.ticks, hf, hc, hrb, hrc, hfin]⟩
    · cases he : b.erroredUpdateRaises with
      | true =>
        exact ⟨[], by simp [processJob, handleJobError, render,
          RenderBehavior.ticks, hf, hc, he, hrb, hrc]⟩
      | false =>
        exact ⟨[erroredEvent rr.uid], by simp [processJob, handleJobError,
          render, RenderBehavior.ticks, hf, hc, he, hrb, hrc]⟩

/-- Counterexample to C2: a pass over a single eligible job in which the
reload `RenderRequest.from_db(uid)` (performed outside the try block at line
119) raises. The exception escapes the loop body (second component `true`)
and no errored status update is written for the job (the trace is empty),
so an exception raised while processing a job is not always caught and
converted. -/
theorem C2_counterexample_from_db_exception_escapes :
    workerPass
      [⟨"J1", "RENDER_MACHINE_01", RenderStatus.ready_to_start,
          "m", "s", "c"⟩]
      (fun u => ⟨u, "RENDER_MACHINE_01", RenderStatus.ready_to_start,
          "m", "s", "c"⟩)
      (fun _ => ⟨true, false, RenderBehavior.completes [] 0 "" "", false,
          false⟩) =
    ([], true) := by decide

/-- C2 (amended): provided that, for each eligible job, neither the record
reload performed before the try block nor the errored write performed inside
the except handlers raises, any exception raised while processing a job is
caught inside the loop, converted into an errored status update for that
job, and no exception escapes the pass. -/
theorem C2_amended_per_job_errors_contained
    (reqs : List RenderRequest) (db : String → RenderRequest)
    (beh : String → JobBehavior)
    (hf : ∀ u ∈ eligibleUids reqs, (beh u).fromDbRaises = false)
    (he : ∀ u ∈ eligibleUids reqs, (beh u).erroredUpdateRaises = false) :
    (workerPass reqs db beh).2 = false ∧
    ∀ u ∈ eligibleUids reqs, raisesInTry (beh u) = true →
      erroredEvent (db u).uid ∈ (workerPass reqs db beh).1 :=
  processUids_no_escape hf he

/-- Witness for the amended C2: a concrete pass with one job whose claim
write raises; the exception is contained and the errored write appears. -/
theorem C2_amended_per_job_errors_contained_witness :
    (workerPass
      [⟨"J1", "RENDER_MACHINE_01", RenderStatus.ready_to_start,
          "m", "s", "c"⟩]
      (fun u => ⟨u, "RENDER_MACHINE_01", RenderStatus.ready_to_start,
          "m", "s", "c"⟩)
      (fun _ => ⟨false, true, RenderBehavior.completes [] 0 "" "", false,
          false⟩)).2 = false ∧
    ∀ u ∈ eligibleUids
      [⟨"J1", "RENDER_MACHINE_01", RenderStatus.ready_to_start,
          "m", "s", "c"⟩],
      raisesInTry ((fun _ => (⟨false, true,
          RenderBehavior.completes [] 0 "" "", false, false⟩ : JobBehavior))
          u) = true →
      erroredEvent (((fun u => (⟨u, "RENDER_MACHINE_01",
          RenderStatus.ready_to_start, "m", "s", "c"⟩ : RenderRequest))
          u)).uid ∈
        (workerPass
          [⟨"J1", "RENDER_MACHINE_01", RenderStatus.ready_to_start,
              "m", "s", "c"⟩]
          (fun u => ⟨u, "RENDER_MACHINE_01", RenderStatus.ready_to_start,
              "m", "s", "c"⟩)
          (fun _ => ⟨false, true, RenderBehavior.completes [] 0 "" "",
              false, false⟩)).1 :=
  C2_amended_per_job_errors_contained _ _ _
    (fun _ _ => rfl) (fun _ _ => rfl)

/-- Counterexample to C5: an exception raised during spawn/monitor
(`RenderBehavior.raises`) whose subsequent errored write itself raises. The
per-job trace contains no errored update and the failure escapes the per-job
handler (second component `true`), so a spawn/monitor exception does not
always yield an errored write without propagation. -/
theorem C5_counterexample_errored_write_raises :
    processJob "J1"
      ⟨"J1", "RENDER_MACHINE_01", RenderStatus.ready_to_start, "m", "s", "c"⟩
      ⟨false, false, RenderBehavior.raises [], false, true⟩ =
    ([Event.update "J1" 0 "Calculando..." RenderStatus.in_progress,
      Event.renderCall "J1" "m" "s" "c"], true) := by decide

/-- C5 (amended): provided the errored write inside the except handler
succeeds, any exception raised during spawning or monitoring of the render
process yields a final errored status update with progress 0 and
time-estimate string "0", and nothing escapes the per-job handler. -/
theorem C5_amended_render_exception_contained
    (uid : String) (rr : RenderRequest) (b : JobBehavior) (ticks : List ℚ)
    (hf : b.fromDbRaises = false) (hc : b.claimUpdateRaises = false)
    (hrb : b.renderBehavior = RenderBehavior.raises ticks)
    (he : b.erroredUpdateRaises = false) :
    (processJob uid rr b).2 = false ∧
    (processJob uid rr b).1.getLast? =
      some (Event.update rr.uid 0 "0" RenderStatus.errored) := by
  have h1 : processJob uid rr b =
      ((claimEvent rr.uid ::
        Event.renderCall uid rr.umap_path rr.useq_path rr.uconfig_path ::
        renderEvents uid ticks) ++ [erroredEvent rr.uid], false) := by
    simp [processJob, handleJobError, render, RenderBehavior.ticks,
      hf, hc, hrb, he]
  rw [h1, List.getLast?_concat]
  exact ⟨rfl, rfl⟩

/-- Witness for the amended C5 at a concrete job whose spawn raises. -/
theorem C5_amended_render_exception_contained_witness :
    (processJob "J1"
      ⟨"J1", "RENDER_MACHINE_01", RenderStatus.ready_to_start, "m", "s", "c"⟩
      ⟨false, false, RenderBehavior.raises [], false, false⟩).2 = false ∧
    (processJob "J1"
      ⟨"J1", "RENDER_MACHINE_01", RenderStatus.ready_to_start, "m", "s", "c"⟩
      ⟨false, false, RenderBehavior.raises [], false, false⟩).1.getLast? =
      some (Event.update "J1" 0 "0" RenderStatus.errored) :=
  C5_amended_render_exception_contained "J1"
    ⟨"J1", "RENDER_MACHINE_01", RenderStatus.ready_to_start, "m", "s", "c"⟩
    ⟨false, false, RenderBehavior.raises [], false, false⟩
    [] rfl rfl rfl rfl

/-- C6: while the process is alive, the i-th heartbeat tick, at elapsed time
`t`, produces exactly the status update
`update uid (min 100 (int((t / 60) * 100))) (str(int(60 - t)) + "s")
in_progress` at position `i + 2` of the per-job trace (after the claim write
and the driver invocation), carrying the same job identifier handed to the
driver; and the progress estimate is clamped to `[0, 100]` for nonnegative
elapsed time. -/
theorem C6_heartbeat_update_formula
    (uid : String) (rr : RenderRequest) (b : JobBehavior) (i : ℕ) (t : ℚ)
    (hf : b.fromDbRaises = false) (hc : b.claimUpdateRaises = false)
    (ht : b.renderBehavior.ticks[i]? = some t) :
    (processJob uid rr b).1[i + 2]? =
      some (Event.update uid (min 100 (pyInt (t / 60 * 100)))
        (toString (pyInt (60 - t)) ++ "s") RenderStatus.in_progress) ∧
    (0 ≤ t → 0 ≤ min 100 (pyInt (t / 60 * 100)) ∧
      min 100 (pyInt (t / 60 * 100)) ≤ 100) := by
  obtain ⟨tail, htr⟩ := processJob_trace_form uid rr hf hc
  refine ⟨?_, fun h0 => heartbeatProgress_bounds h0⟩
  rw [htr]
  have hi : i < b.renderBehavior.ticks.length := by
    rcases List.getElem?_eq_some_iff.mp ht with ⟨h, _⟩
    exact h
  rw [List.getElem?_cons_succ, List.getElem?_cons_succ,
    List.getElem?_append_left (by simpa [renderEvents] using hi)]
  simp only [renderEvents, List.getElem?_map, ht]
  rfl

/-- Witness for C6: the first heartbeat of a run sampled at 30 elapsed
seconds, for a concrete job. -/
theorem C6_heartbeat_update_formula_witness :
    (processJob "J1"
      ⟨"J1", "RENDER_MACHINE_01", RenderStatus.ready_to_start, "m", "s", "c"⟩
      ⟨false, false, RenderBehavior.completes [(30 : ℚ)] 0 "" "", false,
        false⟩).1[0 + 2]? =
      some (Event.update "J1" (min 100 (pyInt ((30 : ℚ) / 60 * 100)))
        (toString (pyInt (60 - (30 : ℚ))) ++ "s") RenderStatus.in_progress) ∧
    (0 ≤ (30 : ℚ) → 0 ≤ min 100 (pyInt ((30 : ℚ) / 60 * 100)) ∧
      min 100 (pyInt ((30 : ℚ) / 60 * 100)) ≤ 100) :=
  C6_heartbeat_update_formula "J1"
    ⟨"J1", "RENDER_MACHINE_01", RenderStatus.ready_to_start, "m", "s", "c"⟩
    ⟨false, false, RenderBehavior.completes [(30 : ℚ)] 0 "" "", false, false⟩
    0 30 rfl rfl (by decide)

/-- Every progress value in a per-job trace is 0, 100 or a heartbeat
value. -/
theorem processJob_update_progress_cases {uid : String} {rr : RenderRequest}
    {b : JobBehavior} {u : String} {p : ℤ} {ts : String} {st : RenderStatus}
    (hmem : Event.update u p ts st ∈ (processJob uid rr b).1) :
    p = 0 ∨ p = 100 ∨
      ∃ t ∈ b.renderBehavior.ticks, p = heartbeatProgress t := by
  rcases processJob_shape uid rr b with hs | hs | ⟨tail, hs, htail⟩ <;>
    rw [hs] at hmem
  · simp at hmem
  · simp [erroredEvent] at hmem
    exact Or.inl hmem.2.1
  · simp only [List.mem_cons, List.mem_append] at hmem
    rcases hmem with he | he | he | he
    · simp [claimEvent] at he
      exact Or.inl he.2.1
    · simp at he
    · simp only [renderEvents, List.mem_map, heartbeatEvent] at he
      obtain ⟨t, ht, hev⟩ := he
      simp only [Event.update.injEq] at hev
      exact Or.inr (Or.inr ⟨t, ht, hev.2.1.symm⟩)
    · rcases htail with rfl | rfl | rfl
      · simp at he
      · simp [erroredEvent] at he
        exact Or.inl he.2.1
      · simp [finishedEvent] at he
        exact Or.inr (Or.inl he.2.1)

/-- C7: every progress value written by the worker in a per-job trace lies
in `[0, 100]` (for nonnegative sampled elapsed times), and the heartbeat
progress sequence is monotonically non-decreasing when the sampled elapsed
times are non-decreasing. -/
theorem C7_progress_bounded_and_monotone
    (uid : String) (rr : RenderRequest) (b : JobBehavior)
    (hpos : ∀ t ∈ b.renderBehavior.ticks, 0 ≤ t)
    (hsorted : b.renderBehavior.ticks.Chain' (· ≤ ·)) :
    (∀ u p ts st, Event.update u p ts st ∈ (processJob uid rr b).1 →
      0 ≤ p ∧ p ≤ 100) ∧
    (b.renderBehavior.ticks.map heartbeatProgress).Chain' (· ≤ ·) := by
  constructor
  · intro u p ts st hmem
    rcases processJob_update_progress_cases hmem with rfl | rfl | ⟨t, ht, rfl⟩
    · norm_num
    · norm_num
    · exact heartbeatProgress_bounds (hpos t ht)
  · exact List.chain'_map_of_chain' heartbeatProgress
      (fun a b h => heartbeatProgress_mono h) hsorted

/-- Witness for C7 at a run with two heartbeats sampled at 30 and 45
seconds. -/
theorem C7_progress_bounded_and_monotone_witness :
    (∀ u p ts st, Event.update u p ts st ∈ (processJob "J1"
      ⟨"J1", "RENDER_MACHINE_01", RenderStatus.ready_to_start, "m", "s", "c"⟩
      ⟨false, false, RenderBehavior.completes [(30 : ℚ), 45] 0 "" "", false,
        false⟩).1 → 0 ≤ p ∧ p ≤ 100) ∧
    ((RenderBehavior.completes [(30 : ℚ), 45] 0 "" "").ticks.map
      heartbeatProgress).Chain' (· ≤ ·) :=
  C7_progress_bounded_and_monotone "J1"
    ⟨"J1", "RENDER_MACHINE_01", RenderStatus.ready_to_start, "m", "s", "c"⟩
    ⟨false, false, RenderBehavior.completes [(30 : ℚ), 45] 0 "" "", false,
      false⟩
    (by decide)
    (List.chain'_cons.mpr ⟨by decide, List.chain'_singleton _⟩)

/-- C8: the driver returns exactly the triple
`(proc.returncode, stdout, stderr)` of the spawned process, and only when
the process has exited (a run interrupted by an exception produces no
result). Blocking until exit is modelled by the result being determined by
the completed process run. -/
theorem C8_render_returns_process_triple
    (uid umap useq uconfig : String) (ticks : List ℚ) (rc : ℤ)
    (out err : String) :
    (render uid umap useq uconfig
      (RenderBehavior.completes ticks rc out err)).2 = some (rc, out, err) ∧
    (render uid umap useq uconfig (RenderBehavior.raises ticks)).2 = none :=
  ⟨rfl, rfl⟩

/-- Counterexample to C9: at elapsed time 60.5 seconds — strictly more than
60 — Python `int(60 - 60.5) = int(-0.5)` truncates toward zero to 0, so the
heartbeat sends the non-negative time-remaining string "0s", not a negative
one. -/
theorem C9_counterexample_no_negative_just_past_60 :
    (60 : ℚ) < mkRat 121 2 ∧ pyInt (60 - mkRat 121 2) = 0 ∧
      heartbeatTimeEstimate (mkRat 121 2) = "0s" := by
  have h : (60 : ℚ) - mkRat 121 2 = -(mkRat 1 2) := by
    rw [Rat.mkRat_eq_divInt, Rat.mkRat_eq_divInt, Rat.divInt_eq_div,
      Rat.divInt_eq_div]
    norm_num
  refine ⟨by decide, by rw [h]; decide, ?_⟩
  show toString (pyInt (60 - mkRat 121 2)) ++ "s" = "0s"
  rw [h]
  decide

/-- C9 (amended): the heartbeat time-remaining string is
`str(int(60 - elapsed)) + "s"` with no lower clamp, and `int` truncates
toward zero; hence for every heartbeat tick at elapsed time at least 61
seconds the integer is negative and the worker sends a negative
time-remaining string "-(m+1)s". -/
theorem C9_amended_negative_estimate_after_61
    (t : ℚ) (ht : 61 ≤ t) :
    pyInt (60 - t) < 0 ∧
    ∃ m : ℕ, heartbeatTimeEstimate t = "-" ++ toString (m + 1) ++ "s" := by
  have hneg : pyInt (60 - t) ≤ -1 := by
    have h1 : (60 : ℚ) - t ≤ -1 := by linarith
    calc pyInt (60 - t) ≤ pyInt (-1) := pyInt_mono h1
      _ = -1 := by decide
  refine ⟨by omega, ?_⟩
  show ∃ m : ℕ, toString (pyInt (60 - t)) ++ "s" =
    "-" ++ toString (m + 1) ++ "s"
  obtain ⟨m, hm⟩ := Int.eq_negSucc_of_lt_zero
    (show pyInt (60 - t) < 0 by omega)
  rw [hm]
  exact ⟨m, rfl⟩

/-- Witness for the amended C9 at elapsed time 65 seconds. -/
theorem C9_amended_negative_estimate_after_61_witness :
    pyInt (60 - (65 : ℚ)) < 0 ∧
    ∃ m : ℕ, heartbeatTimeEstimate (65 : ℚ) =
      "-" ++ toString (m + 1) ++ "s" :=
  C9_amended_negative_estimate_after_61 65 (by decide)

/-- C10: the worker never writes the `ready_to_start` status: no status
update produced anywhere in a pass of the worker loop carries it, for any
fetched job set, registry contents and external behaviour. -/
theorem C10_never_writes_ready_to_start
    (reqs : List RenderRequest) (db : String → RenderRequest)
    (beh : String → JobBehavior) (u : String) (p : ℤ) (ts : String) :
    Event.update u p ts RenderStatus.ready_to_start ∉
      (workerPass reqs db beh).1 := by
  intro hmem
  obtain ⟨u2, _, hmem2⟩ := mem_processUids hmem
  exact processJob_no_ready_write hmem2 rfl
